import Mathlib

/-!
Shallow embedding of the single source file of the repository,
src/ffmpeg_lambda.py, a serverless video-transcoding pipeline.

External collaborators are passed in as explicit values or functions so that
every definition is executable:
the S3 client is represented by the outcome values it would produce
(head-object result, transfer outcome), the filesystem by the facts the code
queries (file existence, file size, directory listing), the process launcher
by a function from the launched argument value to a completed-process record,
and the URL decoder by a function argument.  Observable side effects are
recorded in a trace of events (Ev), listed in program order.
-/

namespace FfmpegLambda

/-- Python exceptions the module can raise: assertion failures from the
request validation, TypeError from ill-typed operations, plain
raise Exception(msg), and FileNotFoundError from os.path.getsize. -/
inductive PyErr where
  | assertionError (msg : String)
  | typeError
  | exn (msg : String)
  | fileNotFoundError
  deriving DecidableEq, Repr

/-- The value handed to the process launcher.  subprocess.run should receive
a list of argv tokens (strList); render_video actually hands it the raw pair
(command, task_types) returned by get_ffmpeg_command, modelled by pyPair. -/
inductive RunArg where
  | strList (xs : List String)
  | pyPair (cmd : Option (List String)) (names : List String)
  deriving DecidableEq, Repr

/-- Result of a completed child process (subprocess.run with captured
standard output and standard error). -/
structure ProcResult where
  stdout : String
  stderr : String
  returncode : Int
  deriving DecidableEq, Repr

/-- Observable side effects of the module, in program order. -/
inductive Ev where
  | procVersionProbe
  | procRun (args : RunArg)
  | s3Download (bucket key path : String)
  | s3Upload (path bucket key : String)
  | logError (msg : String)
  deriving DecidableEq, Repr

/-- Module constant: the value in the Lambda deployment, where the
environment variable LAMBDA_TASK_ROOT is set; the local development
configuration would use /opt/homebrew/bin/ffmpeg instead. -/
def FFMPEG_DIR : String := "/opt/ffmpeg"

/-- Module constant TEMP_DIR, the scratch root (same in both environments). -/
def TEMP_DIR : String := "/tmp"

/-- Module constant S3_SOURCE_BUCKET. -/
def S3_SOURCE_BUCKET : String := "videocloud-s3"

/-- Module constant S3_SOURCE_PATH, the prefix of source objects. -/
def S3_SOURCE_PATH : String := "uploads/"

/-- Module constant S3_RENDERED_PATH, the prefix of rendered objects. -/
def S3_RENDERED_PATH : String := "rendered/"

/-- Embedding of get_ffmpeg_command (src/ffmpeg_lambda.py lines 30 to 84).
The Python dict ffmpeg_tasks is modelled as an association list; the test
`task not in ffmpeg_tasks.keys()` becomes a membership test on the key list
and the dict access becomes an association-list lookup.  Returns the pair
(command, task_types) exactly as the source does. -/
def get_ffmpeg_command (task file_path rendered_file_path : String) :
    Option (List String) × List String :=
  let command_header : List String :=
    [FFMPEG_DIR, "-hide_banner", "-loglevel", "warning", "-i", file_path]
  let command_footer : List String :=
    ["-profile:v", "baseline", "-y", rendered_file_path]
  let ffmpeg_tasks : List (String × List String) :=
    [("h264_mp4_light",
        command_header ++
          ["-c:v", "libx264", "-pix_fmt", "yuv420p", "-preset", "veryfast",
            "-crf", "26"] ++ command_footer),
      ("h264_mp4_medium",
        command_header ++
          ["-c:v", "libx264", "-pix_fmt", "yuv420p", "-preset", "medium",
            "-crf", "22"] ++ command_footer)]
  let command : Option (List String) :=
    if task ∈ ffmpeg_tasks.map Prod.fst then ffmpeg_tasks.lookup task else none
  (command, ffmpeg_tasks.map Prod.fst)

/-- Embedding of download_video (lines 87 to 96).  The s3.download_file call
is represented by its transfer outcome; on success the downloaded file exists
so the os.path.getsize inside the try succeeds; on any exception the cause is
logged and success is set to False. -/
def download_video (transfer : Except String Unit)
    (s3_bucket s3_key file_path : String) : List Ev × Bool :=
  match transfer with
  | .ok _ => ([Ev.s3Download s3_bucket s3_key file_path], true)
  | .error err =>
      ([Ev.s3Download s3_bucket s3_key file_path, Ev.logError err], false)

/-- Embedding of render_video (lines 99 to 116).  input_exists is the result
of os.path.isfile(file_path); run is the process launcher; rendered_size is
the result of os.path.getsize(rendered_file_path) after the run, none when
that file does not exist (os.path.getsize then raises FileNotFoundError).
Note the source binds ffmpeg_command to the whole pair returned by
get_ffmpeg_command, with the task hardcoded to h264_mp4_light, and hands that
pair to subprocess.run; the local success is never set to False, so the
captured standard error is never inspected. -/
def render_video (input_exists : Bool) (run : RunArg → ProcResult)
    (rendered_size : Option Int) (file_path rendered_file_path : String) :
    List Ev × Except PyErr Bool :=
  let success := true
  if input_exists = false then
    ([], .error (.exn "video file not downloaded"))
  else
    let ffmpeg_command :=
      get_ffmpeg_command "h264_mp4_light" file_path rendered_file_path
    let args : RunArg := .pyPair ffmpeg_command.1 ffmpeg_command.2
    let _res : ProcResult := run args
    match rendered_size with
    | none => ([Ev.procRun args], .error .fileNotFoundError)
    | some _ => ([Ev.procRun args], .ok success)

/-- Embedding of upload_video (lines 119 to 136).  rendered_size is the
result of os.path.getsize(rendered_file_path), which the source evaluates in
a log line before the try block: none (missing file) raises
FileNotFoundError before any transfer is attempted.  The s3.upload_file call
is represented by its transfer outcome; an exception there is logged and
makes the function return False. -/
def upload_video (rendered_size : Option Int) (transfer : Except String Unit)
    (s3_bucket rendered_s3_key rendered_file_path : String) :
    List Ev × Except PyErr Bool :=
  match rendered_size with
  | none => ([], .error .fileNotFoundError)
  | some _ =>
    match transfer with
    | .ok _ =>
        ([Ev.s3Upload rendered_file_path s3_bucket rendered_s3_key], .ok true)
    | .error err =>
        ([Ev.s3Upload rendered_file_path s3_bucket rendered_s3_key,
          Ev.logError err], .ok false)

/-- Embedding of get_available_space (lines 180 to 184) over the three
statvfs fields the source reads. -/
def get_available_space (f_frsize f_bavail f_bfree : Int) : Int × Int :=
  (f_frsize * f_bavail, f_frsize * f_bfree)

/-- Embedding of get_obj_file_size (lines 154 to 161).  head_object is the
outcome of s3.head_object: none when it raises botocore ClientError (caught
and logged, object_size stays None), some contentLength when it returns a
response whose get of ContentLength yields contentLength (itself an Option,
None when the field is absent). -/
def get_obj_file_size (head_object : Option (Option Int)) : Option Int :=
  match head_object with
  | none => none
  | some contentLength => contentLength

/-- Python comparison `a < b` where a is int-or-None: comparing None with an
int raises TypeError. -/
def pyLt (a : Option Int) (b : Int) : Except PyErr Bool :=
  match a with
  | none => .error .typeError
  | some n => .ok (decide (n < b))

/-- Python comparison `a > b` where a is int-or-None: comparing None with an
int raises TypeError. -/
def pyGt (a : Option Int) (b : Int) : Except PyErr Bool :=
  match a with
  | none => .error .typeError
  | some n => .ok (decide (n > b))

/-- Embedding of check_available_space (lines 139 to 151).  The source tests
`object_bytes < 0` although get_obj_file_size signals a missing object with
None, never with a negative int, so that branch raises TypeError instead of
reaching the key-not-found raise. -/
def check_available_space (f_frsize f_bavail f_bfree : Int)
    (head_object : Option (Option Int)) : Except PyErr Unit :=
  let available_bytes := (get_available_space f_frsize f_bavail f_bfree).1
  let object_bytes := get_obj_file_size head_object
  match pyLt object_bytes 0 with
  | .error e => .error e
  | .ok true => .error (.exn "key not found in bucket")
  | .ok false =>
    match pyGt object_bytes available_bytes with
    | .error e => .error e
    | .ok true => .error (.exn "Out of space")
    | .ok false => .ok ()

/-- Kind of a directory entry as the source distinguishes them: a regular
file (os.path.isfile), a symbolic link (os.path.islink) or a directory
(os.path.isdir). -/
inductive EntryKind where
  | file
  | link
  | dir
  deriving DecidableEq, Repr

/-- One entry of the scratch directory listing, together with the outcome of
the removal call the source would issue for it (os.unlink for files and
links, shutil.rmtree for directories); removeOk is false when that call
raises. -/
structure ScratchEntry where
  name : String
  kind : EntryKind
  removeOk : Bool
  deriving DecidableEq, Repr

/-- Embedding of clean_up_folder (lines 164 to 177).  Iterates over the
directory listing; files and symbolic links go to os.unlink, directories to
shutil.rmtree; an exception from an individual removal is caught, printed,
and recorded by setting success to False, after which the loop continues
with the remaining entries.  Returns the names attempted in order and the
aggregate success flag. -/
def clean_up_folder : List ScratchEntry → List String × Bool
  | [] => ([], true)
  | e :: rest =>
    let removed : Bool :=
      match e.kind with
      | .file => e.removeOk
      | .link => e.removeOk
      | .dir => e.removeOk
    let r := clean_up_folder rest
    (e.name :: r.1, removed && r.2)

/-- Helper for the pathlib embedding: split a character list on the path
separator. -/
def splitSlash : List Char → List (List Char)
  | [] => [[]]
  | c :: cs =>
    let r := splitSlash cs
    if c = '/' then [] :: r
    else
      match r with
      | [] => [[c]]
      | h :: t => (c :: h) :: t

/-- Embedding of pathlib Path(p).name: the last path component, after
dropping empty components and components equal to a single dot. -/
def pathName (p : String) : String :=
  let comps := (splitSlash p.toList).filter (fun c => c != [] && c != ['.'])
  String.mk (comps.getLast?.getD [])

/-- Helper for the pathlib embedding: name.rfind of the dot character,
minus one when absent, as in Python str.rfind. -/
def strRFindDot (name : List Char) : Int :=
  match name.reverse.findIdx? (· == '.') with
  | some j => (name.length : Int) - 1 - (j : Int)
  | none => -1

/-- Embedding of pathlib Path(p).stem: the final component without its last
suffix; the suffix exists only when the last dot sits strictly inside the
name (neither leading nor trailing). -/
def pathStem (p : String) : String :=
  let name := (pathName p).toList
  let i := strRFindDot name
  if 0 < i ∧ i < (name.length : Int) - 1 then String.mk (name.take i.toNat)
  else String.mk name

/-- Helper for get_ffmpeg_version: str.find of the space character starting
at index start, minus one when absent, as in Python str.find. -/
def strFindSpaceFrom (s : List Char) (start : Nat) : Int :=
  match (s.drop start).findIdx? (· == ' ') with
  | some j => ((start + j : Nat) : Int)
  | none => -1

/-- Embedding of get_ffmpeg_version (lines 187 to 200), parameterised by the
decoded standard output of the version-probe child process; the probe itself
is recorded as an event by the caller. -/
def get_ffmpeg_version (probe_stdout : String) : String :=
  let ffmpeg_version := "unknown"
  if ("ffmpeg version".toList).isPrefixOf probe_stdout.toList then
    let pos := strFindSpaceFrom probe_stdout.toList 15
    if pos > -1 then String.mk ((probe_stdout.toList.drop 15).take (pos.toNat - 15))
    else ffmpeg_version
  else ffmpeg_version

/-- The incoming request: event.get with key filename (default the empty
string when absent) and key tasks (default None when absent). -/
structure Event where
  filename : Option String
  tasks : Option (List String)
  deriving DecidableEq, Repr

/-- Python truthiness of the tasks value used by `assert tasks`: None and
the empty list are falsy, a non-empty list is truthy. -/
def pyTruthy (tasks : Option (List String)) : Bool :=
  match tasks with
  | none => false
  | some l => !l.isEmpty

/-- Embedding of handler (lines 203 to 255).  unq is the urllib unquote
collaborator, probe_stdout the output of the ffmpeg version probe that the
entry logging spawns before anything else.  The validation assertions follow
the source order.  At line 220 the source executes
`_, task_types = get_ffmpeg_command()` with no arguments although task is a
required positional parameter of get_ffmpeg_command, so the interpreter
raises TypeError there on every request that passes the three preceding
assertions; the per-task assertions, the scratch clearing, the capacity
check, the transfer, render and upload calls on lines 221 to 255 are
unreachable. -/
def handler (unq : String → String) (probe_stdout : String) (event : Event) :
    List Ev × Except PyErr (List (String × String)) :=
  let _version := get_ffmpeg_version probe_stdout
  let trace : List Ev := [Ev.procVersionProbe]
  let filename := unq (event.filename.getD "")
  let tasks := event.tasks
  let s3_key := S3_SOURCE_PATH ++ filename
  let rendered_filename := pathStem filename ++ "_rendered.mp4"
  let rendered_s3_key := S3_RENDERED_PATH ++ rendered_filename
  let _ := rendered_s3_key
  if s3_key = S3_SOURCE_PATH then
    (trace, .error (.assertionError "filename is required"))
  else if filename = "" then
    (trace, .error (.assertionError "filename is required"))
  else if pyTruthy tasks = false then
    (trace, .error (.assertionError "task(s) are required"))
  else
    (trace, .error .typeError)

/-- A process launcher whose child writes nothing to either stream. -/
def runNull : RunArg → ProcResult := fun _ => ⟨"", "", 0⟩

/-- A process launcher whose child writes a warning line to its diagnostic
(standard error) stream and exits with status 0. -/
def runWarn : RunArg → ProcResult :=
  fun _ => ⟨"", "Past duration 0.6 too large for frame rate", 0⟩

theorem append_left_eq_self_iff (s t : String) : s ++ t = s ↔ t = "" := by
  constructor
  · intro h
    have h2 : s.data ++ t.data = s.data ++ [] := by
      have h3 := congrArg String.data h
      simpa using h3
    have h4 : t.data = [] := List.append_cancel_left h2
    cases t with
    | mk d => cases h4; rfl
  · intro h
    subst h
    simp

/-- C1: the claim says render_video returns false whenever the child writes
any bytes to its diagnostic stream.  In the source the local success is
initialised to True and never reassigned, and the captured standard error is
only logged, so with an existing input file, a child that writes a warning
to standard error, and a produced output file, render_video returns True.
The code contradicts the documented conservative-failure policy. -/
theorem render_ignores_stderr :
    (render_video true runWarn (some 12345) "/tmp/clip.mov"
        "/tmp/clip_rendered.mp4").2 = Except.ok true ∧
    (runWarn (RunArg.pyPair
        (get_ffmpeg_command "h264_mp4_light" "/tmp/clip.mov"
          "/tmp/clip_rendered.mp4").1
        (get_ffmpeg_command "h264_mp4_light" "/tmp/clip.mov"
          "/tmp/clip_rendered.mp4").2)).stderr ≠ "" :=
  ⟨rfl, by decide⟩

/-- C2: the claim says render executes the child with argv exactly the
argument list resolved for the requested task.  The source instead hands the
process launcher the whole pair (command, task_types) returned by
get_ffmpeg_command, without unpacking it, and with the task hardcoded to
h264_mp4_light; so the launched value is the pair, which differs from the
resolved token list of the medium preset and also from that of the light
preset. -/
theorem render_passes_unresolved_pair :
    (render_video true runNull (some 1) "/tmp/clip.mov"
        "/tmp/clip_rendered.mp4").1 =
      [Ev.procRun (RunArg.pyPair
        (get_ffmpeg_command "h264_mp4_light" "/tmp/clip.mov"
          "/tmp/clip_rendered.mp4").1
        (get_ffmpeg_command "h264_mp4_light" "/tmp/clip.mov"
          "/tmp/clip_rendered.mp4").2)] ∧
    RunArg.pyPair
        (get_ffmpeg_command "h264_mp4_light" "/tmp/clip.mov"
          "/tmp/clip_rendered.mp4").1
        (get_ffmpeg_command "h264_mp4_light" "/tmp/clip.mov"
          "/tmp/clip_rendered.mp4").2 ≠
      RunArg.strList ((get_ffmpeg_command "h264_mp4_medium" "/tmp/clip.mov"
          "/tmp/clip_rendered.mp4").1.getD []) ∧
    RunArg.pyPair
        (get_ffmpeg_command "h264_mp4_light" "/tmp/clip.mov"
          "/tmp/clip_rendered.mp4").1
        (get_ffmpeg_command "h264_mp4_light" "/tmp/clip.mov"
          "/tmp/clip_rendered.mp4").2 ≠
      RunArg.strList ((get_ffmpeg_command "h264_mp4_light" "/tmp/clip.mov"
          "/tmp/clip_rendered.mp4").1.getD []) :=
  ⟨rfl, by decide, by decide⟩

/-- C3: the claim says a missing remote object makes the capacity guard fail
with the key-not-found error.  get_obj_file_size yields None for a missing
object, and the guard then evaluates None < 0, which raises TypeError; the
resulting error is not the key-not-found one, whose branch is unreachable.
The handler, on a request naming a missing object, dies even earlier with
the TypeError of the argument-less get_ffmpeg_command call, and its trace
holds no download event, so no local file is ever created. -/
theorem capacity_guard_missing_object_typeerror :
    check_available_space 4096 1000 1000 none = Except.error PyErr.typeError ∧
    PyErr.typeError ≠ PyErr.exn "key not found in bucket" ∧
    (handler id "" ⟨some "ghost.mov", some ["h264_mp4_light"]⟩).1 =
      [Ev.procVersionProbe] :=
  ⟨rfl, by decide, rfl⟩

/-- C4 counterexample: the claim says invalid requests fail with
InvalidRequest before any network or child-process call.  At the concrete
request with an empty filename the failure trace already holds the
version-probe child-process event, and at the concrete request with an
unrecognized task name the handler fails with TypeError (the argument-less
get_ffmpeg_command call on line 220), not with the InvalidRequest
assertion. -/
theorem handler_validation_counterexample :
    (handler id "" ⟨some "", none⟩).1 = [Ev.procVersionProbe] ∧
    [Ev.procVersionProbe] ≠ ([] : List Ev) ∧
    handler id "" ⟨some "clip.mov", some ["bogus"]⟩ =
      ([Ev.procVersionProbe], Except.error PyErr.typeError) :=
  ⟨rfl, by decide, rfl⟩

/-- C4 amended: for every request, the handler fails before any storage or
network operation, its trace holding exactly the one version-probe
child-process event: with the InvalidRequest assertion message for an empty
filename, with the InvalidRequest assertion message for a missing or empty
task list, and with TypeError (from the argument-less get_ffmpeg_command
call that precedes the per-task check) for every request passing those two
assertions, including every request whose task list holds an unrecognized
name. -/
theorem handler_validates_then_typeerrors (unq : String → String)
    (probe : String) (ev : Event) :
    (unq (ev.filename.getD "") = "" →
      handler unq probe ev =
        ([Ev.procVersionProbe],
          Except.error (PyErr.assertionError "filename is required"))) ∧
    (unq (ev.filename.getD "") ≠ "" → pyTruthy ev.tasks = false →
      handler unq probe ev =
        ([Ev.procVersionProbe],
          Except.error (PyErr.assertionError "task(s) are required"))) ∧
    (unq (ev.filename.getD "") ≠ "" → pyTruthy ev.tasks = true →
      handler unq probe ev =
        ([Ev.procVersionProbe], Except.error PyErr.typeError)) := by
  refine ⟨?_, ?_, ?_⟩
  · intro h
    simp [handler, append_left_eq_self_iff, h]
  · intro h ht
    simp [handler, append_left_eq_self_iff, h, ht]
  · intro h ht
    simp [handler, append_left_eq_self_iff, h, ht]

/-- C4 amended witness: the amended statement applied at the concrete
empty-filename request. -/
theorem handler_validates_then_typeerrors_witness :
    handler id "" ⟨some "", none⟩ =
      ([Ev.procVersionProbe],
        Except.error (PyErr.assertionError "filename is required")) :=
  (handler_validates_then_typeerrors id "" ⟨some "", none⟩).1 rfl

/-- C5: the claim says an oversized remote object makes the pipeline fail
with OutOfSpace and perform no download.  The capacity guard itself, called
directly with object size 5 and one available byte, does raise the
out-of-space error; but the handler raises TypeError at the argument-less
get_ffmpeg_command call before ever reaching the capacity check, so on the
concrete well-formed request the pipeline fails with TypeError, with no
download event in its trace. -/
theorem pipeline_dies_before_capacity_guard :
    handler id "" ⟨some "big.mov", some ["h264_mp4_light"]⟩ =
      ([Ev.procVersionProbe], Except.error PyErr.typeError) ∧
    check_available_space 1 1 1 (some (some 5)) =
      Except.error (PyErr.exn "Out of space") :=
  ⟨rfl, rfl⟩

/-- C6: get_ffmpeg_command reports exactly the two preset names, returns the
fixed ordered token template for each of the two names, and returns None for
every other task name. -/
theorem get_ffmpeg_command_table (t fp rfp : String) :
    (get_ffmpeg_command t fp rfp).2 = ["h264_mp4_light", "h264_mp4_medium"] ∧
    (get_ffmpeg_command "h264_mp4_light" fp rfp).1 =
      some [FFMPEG_DIR, "-hide_banner", "-loglevel", "warning", "-i", fp,
        "-c:v", "libx264", "-pix_fmt", "yuv420p", "-preset", "veryfast",
        "-crf", "26", "-profile:v", "baseline", "-y", rfp] ∧
    (get_ffmpeg_command "h264_mp4_medium" fp rfp).1 =
      some [FFMPEG_DIR, "-hide_banner", "-loglevel", "warning", "-i", fp,
        "-c:v", "libx264", "-pix_fmt", "yuv420p", "-preset", "medium",
        "-crf", "22", "-profile:v", "baseline", "-y", rfp] ∧
    (t ≠ "h264_mp4_light" → t ≠ "h264_mp4_medium" →
      (get_ffmpeg_command t fp rfp).1 = none) := by
  refine ⟨rfl, rfl, rfl, ?_⟩
  intro h1 h2
  simp [get_ffmpeg_command, h1, h2]

/-- C6 witness: the table theorem applied at the concrete unknown task name
bogus, discharging both inequality hypotheses. -/
theorem get_ffmpeg_command_table_witness :
    (get_ffmpeg_command "bogus" "/tmp/a.mov" "/tmp/a_rendered.mp4").1 = none ∧
    (get_ffmpeg_command "bogus" "/tmp/a.mov" "/tmp/a_rendered.mp4").2 =
      ["h264_mp4_light", "h264_mp4_medium"] :=
  ⟨(get_ffmpeg_command_table "bogus" "/tmp/a.mov" "/tmp/a_rendered.mp4").2.2.2
      (by decide) (by decide),
    (get_ffmpeg_command_table "bogus" "/tmp/a.mov" "/tmp/a_rendered.mp4").1⟩

/-- C7: on a transport error, fetch (download_video) returns false and store
(upload_video) returns false, in both cases after logging the underlying
cause; when the transfer succeeds they return true.  For store the statement
takes the local file as present (some size), since the source reads the file
size before attempting the transfer, so a transport error can only arise
with the file present. -/
theorem transfer_false_on_transport_error (b k p err : String) (n : Int) :
    (download_video (Except.error err) b k p).2 = false ∧
    (download_video (Except.ok ()) b k p).2 = true ∧
    Ev.logError err ∈ (download_video (Except.error err) b k p).1 ∧
    (upload_video (some n) (Except.error err) b k p).2 = Except.ok false ∧
    (upload_video (some n) (Except.ok ()) b k p).2 = Except.ok true ∧
    Ev.logError err ∈ (upload_video (some n) (Except.error err) b k p).1 := by
  refine ⟨rfl, rfl, ?_, rfl, rfl, ?_⟩ <;>
    simp [download_video, upload_video]

/-- C7 witness: the transfer theorem applied at concrete arguments. -/
theorem transfer_false_on_transport_error_witness :
    (download_video (Except.error "boom") "videocloud-s3" "uploads/clip.mov"
        "/tmp/clip.mov").2 = false :=
  (transfer_false_on_transport_error "videocloud-s3" "uploads/clip.mov"
      "/tmp/clip.mov" "boom" 7).1

/-- C8: clean_up_folder attempts removal of every entry of the listing in
order regardless of earlier failures, and its aggregate flag is true exactly
when every individual removal succeeded. -/
theorem clean_up_folder_attempts_all (entries : List ScratchEntry) :
    (clean_up_folder entries).1 = entries.map ScratchEntry.name ∧
    ((clean_up_folder entries).2 = true ↔
      ∀ e ∈ entries, e.removeOk = true) := by
  induction entries with
  | nil => simp [clean_up_folder]
  | cons e rest ih =>
    cases hk : e.kind <;>
      simp [clean_up_folder, hk, ih.1, ih.2, Bool.and_eq_true]

/-- C8 witness: the clean-up theorem applied at a concrete two-entry listing
in which the directory entry fails to be removed. -/
theorem clean_up_folder_attempts_all_witness :
    (clean_up_folder [⟨"clip.mov", EntryKind.file, true⟩,
        ⟨"sub", EntryKind.dir, false⟩]).1 = ["clip.mov", "sub"] :=
  (clean_up_folder_attempts_all [⟨"clip.mov", EntryKind.file, true⟩,
      ⟨"sub", EntryKind.dir, false⟩]).1

/-- C9: the claim describes a successfully completed invocation storing the
rendered object under the derived key and returning the success marker.  On
the concrete scenario request the handler raises TypeError at the
argument-less get_ffmpeg_command call, so no invocation ever completes,
nothing is stored and the success marker is unreachable; the second conjunct
evaluates the derived key that the dead code on lines 214 to 215 would have
produced, confirming the naming scheme itself. -/
theorem pipeline_never_completes :
    handler id "" ⟨some "clip.mov", some ["h264_mp4_light"]⟩ =
      ([Ev.procVersionProbe], Except.error PyErr.typeError) ∧
    S3_RENDERED_PATH ++ pathStem "clip.mov" ++ "_rendered.mp4" =
      "rendered/clip_rendered.mp4" :=
  ⟨rfl, rfl⟩

/-- C10: when the local file passed to store is missing, upload_video raises
FileNotFoundError from the file-size log that precedes the guarded transfer,
rather than returning false, and attempts no transfer; with the file present
the return-false path covers exactly the errors raised by the transfer
itself. -/
theorem upload_raises_on_missing_local_file (b k p err : String) (n : Int) :
    (upload_video none (Except.ok ()) b k p).2 =
      Except.error PyErr.fileNotFoundError ∧
    (upload_video none (Except.error err) b k p).2 =
      Except.error PyErr.fileNotFoundError ∧
    (upload_video none (Except.ok ()) b k p).1 = [] ∧
    (upload_video none (Except.error err) b k p).1 = [] ∧
    (upload_video (some n) (Except.error err) b k p).2 = Except.ok false ∧
    (upload_video (some n) (Except.ok ()) b k p).2 = Except.ok true :=
  ⟨rfl, rfl, rfl, rfl, rfl, rfl⟩

/-- C10 witness: the missing-file theorem applied at concrete arguments. -/
theorem upload_raises_on_missing_local_file_witness :
    (upload_video none (Except.ok ()) "videocloud-s3"
        "rendered/clip_rendered.mp4" "/tmp/clip_rendered.mp4").2 =
      Except.error PyErr.fileNotFoundError :=
  (upload_raises_on_missing_local_file "videocloud-s3"
      "rendered/clip_rendered.mp4" "/tmp/clip_rendered.mp4" "boom" 9).1

end FfmpegLambda
